import Mathlib

/-!
Shallow embedding of `Erc1155Service`
(src/typescript/packages/plugins/erc1155/src/erc1155.service.ts).

The wallet client (`EVMWalletClient`) is an external collaborator; it is
modelled as a record of functions.  Fallible wallet calls return
`Except String _`, the `String` being the message of the JavaScript
exception.  Each service method with a `try`/`catch` block is split into a
`...Try` definition (the `try` body) plus a wrapper performing the `catch`,
mirroring the source structure line by line.
-/

/-- Raw values returned by the wallet client's generic `read` call
(contract view results are untyped at this boundary in the source). -/
inductive RawValue
  | num (n : Int)
  | boolean (b : Bool)
  | str (s : String)
  | list (l : List RawValue)
deriving Repr

/-- Model of the JavaScript `Number(x)` coercion, restricted to the raw
values that occur at this service's call sites (contract balances).
Numbers convert to themselves and booleans to 0/1; the remaining cases,
which in JavaScript give `NaN`, are collapsed to 0 — no claim depends on
them. -/
def jsNumber : RawValue → Int
  | .num n => n
  | .boolean b => bif b then 1 else 0
  | .str _ => 0
  | .list _ => 0

/-- The token descriptor (`Token` in the source).  `chains` is the mapping
from chain id to the contract address registered on that chain
(`token.chains[chain.id]?.contractAddress`). -/
structure Token where
  symbol : String
  name : String
  decimals : Nat
  uri : String
  totalSupply : Nat
  id : Nat
  chains : List (Nat × String)
deriving Repr, DecidableEq

/-- `{id}` record returned by `walletClient.getChain()`. -/
structure Chain where
  id : Nat
deriving Repr, DecidableEq

/-- The fixed contract ABI constant (`ERC1155_ABI`), opaque to this core. -/
inductive Abi
  | erc1155
deriving Repr, DecidableEq

/-- One ABI-encoded argument of a contract call. -/
inductive Arg
  | addr (a : String)
  | addrList (l : List String)
  | num (n : Nat)
  | numList (l : List Nat)
  | bytes (b : String)
  | flag (b : Bool)
deriving Repr, DecidableEq

/-- Call spec for `walletClient.read({address, abi, functionName, args})`. -/
structure ReadSpec where
  address : String
  abi : Abi
  functionName : String
  args : List Arg
deriving Repr

/-- The record `{value}` a `read` call resolves to. -/
structure ReadResult where
  value : RawValue
deriving Repr

/-- Call spec for `walletClient.sendTransaction({to, abi, functionName, args})`. -/
structure TxSpec where
  «to» : String
  abi : Abi
  functionName : String
  args : List Arg
deriving Repr

/-- The record `{hash}` a `sendTransaction` call resolves to. -/
structure TxResult where
  hash : String
deriving Repr, DecidableEq

/-- External wallet-client collaborator.  `getChain` is a synchronous
accessor in the source (no `await`, returns a static chain record), so it
is modelled as a plain value; the three asynchronous calls may fail. -/
structure EVMWalletClient where
  getChain : Chain
  resolveAddress : String → Except String String
  read : ReadSpec → Except String ReadResult
  sendTransaction : TxSpec → Except String TxResult

/-- The distinct failure outcomes of the service.  In the source every
throw site builds a plain `Error` with its own message; the spec's error
taxonomy names each site: the two throw sites of `getTokenInfoBySymbol`
are `NotFoundError` and `UnsupportedChainError`, the catch sites of the
read-path operations are `QueryError`, of the transfer operations
`TransferError`, of `setApprovalForAll` `ApprovalError`.  Each constructor
carries the message the source builds at that site. -/
inductive ServiceErr
  | notFound (msg : String)
  | unsupportedChain (msg : String)
  | query (msg : String)
  | transfer (msg : String)
  | approval (msg : String)
deriving Repr, DecidableEq

structure GetTokenInfoBySymbolParameters where
  symbol : String
deriving Repr, DecidableEq

structure BalanceOfParameters where
  tokenAddress : String
  owner : String
  id : Nat
deriving Repr, DecidableEq

structure BalanceOfBatchParameters where
  tokenAddress : String
  owners : List String
  ids : List Nat
deriving Repr, DecidableEq

structure SafeTransferFromParameters where
  tokenAddress : String
  «from» : String
  «to» : String
  id : Nat
  value : Nat
  data : Option String
deriving Repr, DecidableEq

structure SafeBatchTransferFromParameters where
  tokenAddress : String
  «from» : String
  «to» : String
  ids : List Nat
  values : List Nat
  data : Option String
deriving Repr, DecidableEq

structure SetApprovalForAllParameters where
  tokenAddress : String
  operator : String
  approved : Bool
deriving Repr, DecidableEq

structure IsApprovedForAllParameters where
  tokenAddress : String
  owner : String
  operator : String
deriving Repr, DecidableEq

/-- The record returned by a successful `getTokenInfoBySymbol` (the object
literal at lines 42-50 of the source; note it has no `chains` field). -/
structure TokenInfo where
  symbol : String
  contractAddress : String
  id : Nat
  decimals : Nat
  name : String
  uri : String
  totalSupply : Nat
deriving Repr, DecidableEq

/-- The service: holds the private `tokens` list. -/
structure Erc1155Service where
  tokens : List Token
deriving Repr, DecidableEq

/-- `constructor({ tokens }: { tokens?: Token[] } = {}) { this.tokens = tokens ?? []; }` -/
def Erc1155Service.create (tokens : Option (List Token)) : Erc1155Service :=
  { tokens := tokens.getD [] }

/-- Model of JavaScript `String.prototype.toLowerCase`: lowercase every
character (the registry symbols are ASCII, where `Char.toLower` agrees
with the JavaScript builtin). -/
def jsToLower (s : String) : String :=
  ⟨s.data.map Char.toLower⟩

/-- `[token.symbol, token.symbol.toLowerCase()].includes(parameters.symbol)` -/
def symbolMatches (token : Token) (symbolQuery : String) : Bool :=
  [token.symbol, jsToLower token.symbol].contains symbolQuery

/-- `token.chains[chain.id]?.contractAddress`: object-key lookup in the
chain map, `none` when the chain id has no entry. -/
def chainLookup (chains : List (Nat × String)) (chainId : Nat) : Option String :=
  (chains.find? (fun p => p.1 == chainId)).map (fun p => p.2)

/-- Lines 34-50 of the source: everything `getTokenInfoBySymbol` does after
`find` has produced a token.  `!contractAddress` in JavaScript is true both
when the chain entry is missing and when the address string is empty
(falsy), so both cases throw. -/
def resolveToken (walletClient : EVMWalletClient) (symbolQuery : String)
    (token : Token) : Except ServiceErr TokenInfo :=
  let chain := walletClient.getChain
  match chainLookup token.chains chain.id with
  | none => .error (.unsupportedChain
      ("Token with symbol " ++ symbolQuery ++ " not found on chain " ++ toString chain.id))
  | some contractAddress =>
    if contractAddress = "" then
      .error (.unsupportedChain
        ("Token with symbol " ++ symbolQuery ++ " not found on chain " ++ toString chain.id))
    else
      .ok { symbol := token.symbol, contractAddress := contractAddress,
            id := token.id, decimals := token.decimals, name := token.name,
            uri := token.uri, totalSupply := token.totalSupply }

/-- `getTokenInfoBySymbol` (lines 25-51). -/
def Erc1155Service.getTokenInfoBySymbol (self : Erc1155Service)
    (walletClient : EVMWalletClient) (parameters : GetTokenInfoBySymbolParameters) :
    Except ServiceErr TokenInfo :=
  match self.tokens.find? (fun token => symbolMatches token parameters.symbol) with
  | none => .error (.notFound ("Token with symbol " ++ parameters.symbol ++ " not found"))
  | some token => resolveToken walletClient parameters.symbol token

/-- The `try` body of `balanceOf` (lines 57-67). -/
def Erc1155Service.balanceOfTry (walletClient : EVMWalletClient)
    (parameters : BalanceOfParameters) : Except String Int := do
  let resolvedWalletAddress ← walletClient.resolveAddress parameters.owner
  let rawBalance ← walletClient.read
    { address := parameters.tokenAddress
      abi := .erc1155
      functionName := "balanceOf"
      args := [.addr resolvedWalletAddress, .num parameters.id] }
  pure (jsNumber rawBalance.value)

/-- `balanceOf` (lines 56-71): `try` body plus the `catch` rethrow. -/
def Erc1155Service.balanceOf (_self : Erc1155Service)
    (walletClient : EVMWalletClient) (parameters : BalanceOfParameters) :
    Except ServiceErr Int :=
  match Erc1155Service.balanceOfTry walletClient parameters with
  | .ok v => .ok v
  | .error error => .error (.query ("Failed to fetch balance: " ++ error))

/-- The read spec built at lines 80-85 of the source. -/
def balanceOfBatchRead (tokenAddress : String) (resolvedOwners : List String)
    (ids : List Nat) : ReadSpec :=
  { address := tokenAddress
    abi := .erc1155
    functionName := "balanceOfBatch"
    args := [.addrList resolvedOwners, .numList ids] }

/-- The `try` body of `balanceOfBatch` (lines 77-88).  `Promise.all` over
`owners.map(resolveAddress)` is order-preserving and fails when any
resolution fails: `mapM` in the `Except` monad.  `.map` on a non-array
raw value throws a `TypeError`, caught by the same `catch`. -/
def Erc1155Service.balanceOfBatchTry (walletClient : EVMWalletClient)
    (parameters : BalanceOfBatchParameters) : Except String (List Int) := do
  let resolvedOwners ← parameters.owners.mapM walletClient.resolveAddress
  let rawBalances ← walletClient.read
    (balanceOfBatchRead parameters.tokenAddress resolvedOwners parameters.ids)
  match rawBalances.value with
  | .list l => pure (l.map jsNumber)
  | _ => .error "TypeError: rawBalances.value.map is not a function"

/-- `balanceOfBatch` (lines 76-92). -/
def Erc1155Service.balanceOfBatch (_self : Erc1155Service)
    (walletClient : EVMWalletClient) (parameters : BalanceOfBatchParameters) :
    Except ServiceErr (List Int) :=
  match Erc1155Service.balanceOfBatchTry walletClient parameters with
  | .ok v => .ok v
  | .error error => .error (.query ("Failed to fetch batch balances: " ++ error))

/-- The transaction spec built at lines 102-107 of the source:
`data` defaults to `"0x"` via `parameters.data ?? "0x"`. -/
def safeTransferFromTx (fromAddr toAddr : String)
    (parameters : SafeTransferFromParameters) : TxSpec :=
  { «to» := parameters.tokenAddress
    abi := .erc1155
    functionName := "safeTransferFrom"
    args := [.addr fromAddr, .addr toAddr, .num parameters.id,
             .num parameters.value, .bytes (parameters.data.getD "0x")] }

/-- The `try` body of `safeTransferFrom` (lines 98-108). -/
def Erc1155Service.safeTransferFromTry (walletClient : EVMWalletClient)
    (parameters : SafeTransferFromParameters) : Except String String := do
  let fromAddr ← walletClient.resolveAddress parameters.«from»
  let toAddr ← walletClient.resolveAddress parameters.«to»
  let hash ← walletClient.sendTransaction (safeTransferFromTx fromAddr toAddr parameters)
  pure hash.hash

/-- `safeTransferFrom` (lines 97-112). -/
def Erc1155Service.safeTransferFrom (_self : Erc1155Service)
    (walletClient : EVMWalletClient) (parameters : SafeTransferFromParameters) :
    Except ServiceErr String :=
  match Erc1155Service.safeTransferFromTry walletClient parameters with
  | .ok v => .ok v
  | .error error => .error (.transfer ("Failed to transfer: " ++ error))

/-- The transaction spec built at lines 122-127 of the source. -/
def safeBatchTransferFromTx (fromAddr toAddr : String)
    (parameters : SafeBatchTransferFromParameters) : TxSpec :=
  { «to» := parameters.tokenAddress
    abi := .erc1155
    functionName := "safeBatchTransferFrom"
    args := [.addr fromAddr, .addr toAddr, .numList parameters.ids,
             .numList parameters.values, .bytes (parameters.data.getD "0x")] }

/-- The `try` body of `safeBatchTransferFrom` (lines 118-128). -/
def Erc1155Service.safeBatchTransferFromTry (walletClient : EVMWalletClient)
    (parameters : SafeBatchTransferFromParameters) : Except String String := do
  let fromAddr ← walletClient.resolveAddress parameters.«from»
  let toAddr ← walletClient.resolveAddress parameters.«to»
  let hash ← walletClient.sendTransaction (safeBatchTransferFromTx fromAddr toAddr parameters)
  pure hash.hash

/-- `safeBatchTransferFrom` (lines 117-132). -/
def Erc1155Service.safeBatchTransferFrom (_self : Erc1155Service)
    (walletClient : EVMWalletClient) (parameters : SafeBatchTransferFromParameters) :
    Except ServiceErr String :=
  match Erc1155Service.safeBatchTransferFromTry walletClient parameters with
  | .ok v => .ok v
  | .error error => .error (.transfer ("Failed to batch transfer: " ++ error))

/-- The `try` body of `setApprovalForAll` (lines 138-147). -/
def Erc1155Service.setApprovalForAllTry (walletClient : EVMWalletClient)
    (parameters : SetApprovalForAllParameters) : Except String String := do
  let operator ← walletClient.resolveAddress parameters.operator
  let hash ← walletClient.sendTransaction
    { «to» := parameters.tokenAddress
      abi := .erc1155
      functionName := "setApprovalForAll"
      args := [.addr operator, .flag parameters.approved] }
  pure hash.hash

/-- `setApprovalForAll` (lines 137-151). -/
def Erc1155Service.setApprovalForAll (_self : Erc1155Service)
    (walletClient : EVMWalletClient) (parameters : SetApprovalForAllParameters) :
    Except ServiceErr String :=
  match Erc1155Service.setApprovalForAllTry walletClient parameters with
  | .ok v => .ok v
  | .error error => .error (.approval ("Failed to set approval: " ++ error))

/-- The `try` body of `isApprovedForAll` (lines 157-168).  Note the source
returns `approved` — the whole `ReadResult` record produced by `read` —
not `approved.value`. -/
def Erc1155Service.isApprovedForAllTry (walletClient : EVMWalletClient)
    (parameters : IsApprovedForAllParameters) : Except String ReadResult := do
  let owner ← walletClient.resolveAddress parameters.owner
  let operator ← walletClient.resolveAddress parameters.operator
  let approved ← walletClient.read
    { address := parameters.tokenAddress
      abi := .erc1155
      functionName := "isApprovedForAll"
      args := [.addr owner, .addr operator] }
  pure approved

/-- `isApprovedForAll` (lines 156-172). -/
def Erc1155Service.isApprovedForAll (_self : Erc1155Service)
    (walletClient : EVMWalletClient) (parameters : IsApprovedForAllParameters) :
    Except ServiceErr ReadResult :=
  match Erc1155Service.isApprovedForAllTry walletClient parameters with
  | .ok v => .ok v
  | .error error => .error (.query ("Failed to fetch balance: " ++ error))

/-!  A request/response view of the service: one constructor per public
method, used to state that no sequence of operations mutates the private
`tokens` list.  `step` dispatches a request to the corresponding method
and returns the post-call service state; the translation of every method
body contains no assignment to `this.tokens`, so each branch returns the
receiver unchanged. -/

/-- One invocation of a public method of the service. -/
inductive Request
  | getTokenInfoBySymbol (p : GetTokenInfoBySymbolParameters)
  | balanceOf (p : BalanceOfParameters)
  | balanceOfBatch (p : BalanceOfBatchParameters)
  | safeTransferFrom (p : SafeTransferFromParameters)
  | safeBatchTransferFrom (p : SafeBatchTransferFromParameters)
  | setApprovalForAll (p : SetApprovalForAllParameters)
  | isApprovedForAll (p : IsApprovedForAllParameters)

/-- The (success or failure) value a method invocation produces. -/
inductive Response
  | info (r : Except ServiceErr TokenInfo)
  | balance (r : Except ServiceErr Int)
  | balances (r : Except ServiceErr (List Int))
  | txHash (r : Except ServiceErr String)
  | approvalRead (r : Except ServiceErr ReadResult)

/-- Dispatch one request against the service state. -/
def Erc1155Service.step (self : Erc1155Service) (walletClient : EVMWalletClient) :
    Request → Response × Erc1155Service
  | .getTokenInfoBySymbol p => (.info (self.getTokenInfoBySymbol walletClient p), self)
  | .balanceOf p => (.balance (self.balanceOf walletClient p), self)
  | .balanceOfBatch p => (.balances (self.balanceOfBatch walletClient p), self)
  | .safeTransferFrom p => (.txHash (self.safeTransferFrom walletClient p), self)
  | .safeBatchTransferFrom p => (.txHash (self.safeBatchTransferFrom walletClient p), self)
  | .setApprovalForAll p => (.txHash (self.setApprovalForAll walletClient p), self)
  | .isApprovedForAll p => (.approvalRead (self.isApprovedForAll walletClient p), self)

/-- Run a sequence of requests, threading the service state. -/
def Erc1155Service.run (self : Erc1155Service) (walletClient : EVMWalletClient) :
    List Request → List Response × Erc1155Service
  | [] => ([], self)
  | r :: rs =>
    let stepped := self.step walletClient r
    let rest := stepped.2.run walletClient rs
    (stepped.1 :: rest.1, rest.2)

/-!  Concrete fixtures used by witnesses and counterexamples. -/

/-- The descriptor of the spec's GOLD scenario. -/
def goldToken : Token :=
  { symbol := "GOLD", name := "Gold", decimals := 0, uri := "uri:gold",
    totalSupply := 100, id := 1, chains := [(1, "0xAAA")] }

/-- A descriptor whose symbol is the lowercase form of `goldToken`'s. -/
def goldLowerToken : Token :=
  { symbol := "gold", name := "Gold lower", decimals := 0, uri := "uri:gold2",
    totalSupply := 50, id := 2, chains := [(1, "0xBBB")] }

/-- Registry holding only the GOLD descriptor. -/
def svcGold : Erc1155Service := Erc1155Service.create (some [goldToken])

/-- Registry where lowercasing makes two symbols collide: `gold` before `GOLD`. -/
def svcDup : Erc1155Service := Erc1155Service.create (some [goldLowerToken, goldToken])

/-- A wallet client on chain 1 whose calls all succeed with fixed values. -/
def wcChain1 : EVMWalletClient :=
  { getChain := { id := 1 }
    resolveAddress := fun s => .ok s
    read := fun _ => .ok { value := .boolean true }
    sendTransaction := fun _ => .ok { hash := "0xhash" } }

/-- A wallet client on chain 2 (no GOLD address registered there). -/
def wcChain2 : EVMWalletClient :=
  { getChain := { id := 2 }
    resolveAddress := fun s => .ok s
    read := fun _ => .ok { value := .boolean true }
    sendTransaction := fun _ => .ok { hash := "0xhash" } }

/-- A wallet client whose batched read returns the two balances 5 and 7. -/
def wcBatch : EVMWalletClient :=
  { getChain := { id := 1 }
    resolveAddress := fun s => .ok s
    read := fun _ => .ok { value := .list [.num 5, .num 7] }
    sendTransaction := fun _ => .ok { hash := "0xhash" } }

/-- A wallet client whose `sendTransaction` rejects with message `boom`. -/
def wcBoom : EVMWalletClient :=
  { getChain := { id := 1 }
    resolveAddress := fun s => .ok s
    read := fun _ => .ok { value := .boolean true }
    sendTransaction := fun _ => .error "boom" }

/-!  Helper lemmas shared by the claim theorems. -/

/-- `Except` bind on a success reduces to the continuation. -/
theorem exceptBindOk {ε α β : Type} (a : α) (f : α → Except ε β) :
    (Except.ok a >>= f) = f a := rfl

/-- `Except` bind on a failure short-circuits. -/
theorem exceptBindErr {ε α β : Type} (e : ε) (f : α → Except ε β) :
    ((Except.error e : Except ε α) >>= f) = Except.error e := rfl

/-- A token always matches its own exact symbol. -/
theorem symbolMatches_self (t : Token) : symbolMatches t t.symbol = true := by
  simp [symbolMatches, List.contains]

/-- A token always matches the lowercase form of its symbol. -/
theorem symbolMatches_lower (t : Token) : symbolMatches t (jsToLower t.symbol) = true := by
  simp [symbolMatches, List.contains]

/-- `List.find?` returns the element at the first index whose predicate
holds, when all earlier indices fail the predicate. -/
theorem find?_first_index {α : Type} (p : α → Bool) (l : List α) (i : Nat)
    (hi : i < l.length) (hp : p (l.get ⟨i, hi⟩) = true)
    (hbefore : ∀ (j : Nat) (hj : j < i), p (l.get ⟨j, Nat.lt_trans hj hi⟩) = false) :
    l.find? p = some (l.get ⟨i, hi⟩) := by
  induction l generalizing i with
  | nil => exact absurd hi (by simp)
  | cons a rest ih =>
    cases i with
    | zero => exact List.find?_cons_of_pos _ hp
    | succ n =>
      have ha : p a = false := hbefore 0 (Nat.succ_pos n)
      rw [List.find?_cons_of_neg _ (by simp [ha])]
      exact ih n (Nat.lt_of_succ_lt_succ hi) hp
        (fun j hj => hbefore (j + 1) (Nat.succ_lt_succ hj))

/-- Claim C1: the spec says `isApprovedForAll` returns the boolean result of
the wallet client's read call unmodified, "not a wrapper or record
containing it".  The source (line 168) returns `approved` — the whole
`{value}` read-result record — instead of `approved.value`: at a wallet
client whose read call succeeds with the boolean `true`, the operation
returns the record wrapping the boolean, so the claim fails on the code
while every sibling operation does unwrap its raw result. -/
theorem isApprovedForAll_returns_read_record :
    svcGold.isApprovedForAll wcChain1
      { tokenAddress := "0xAAA", owner := "alice", operator := "bob" } =
      Except.ok { value := RawValue.boolean true } := rfl

/-- Claim C2 counterexample: the symbol match is not case-insensitive.  The
registry holds the descriptor with symbol `GOLD`; the query `Gold` equals
that symbol up to letter case, yet the lookup fails with the not-found
error, because the source only compares the query against the exact symbol
and its full-lowercase form. -/
theorem lookupBySymbol_mixed_case_not_found :
    svcGold.getTokenInfoBySymbol wcChain1 { symbol := "Gold" } =
      Except.error (.notFound "Token with symbol Gold not found") := rfl

/-- Claim C2 (amended): a query that equals a registered descriptor's
symbol exactly, or equals its full-lowercase form, never fails with the
not-found error; other case mixtures are not matched. -/
theorem lookupBySymbol_exact_or_lowercase_found (svc : Erc1155Service)
    (wc : EVMWalletClient) (D : Token) (s : String)
    (hD : D ∈ svc.tokens) (hs : s = D.symbol ∨ s = jsToLower D.symbol) :
    ∀ m, svc.getTokenInfoBySymbol wc { symbol := s } ≠ Except.error (.notFound m) := by
  intro m
  have hmatch : symbolMatches D s = true := by
    rcases hs with h | h <;> simp [symbolMatches, List.contains, h]
  have hne : svc.tokens.find? (fun t => symbolMatches t s) ≠ none := by
    rw [Ne, List.find?_eq_none]
    push_neg
    exact ⟨D, hD, by simp [hmatch]⟩
  obtain ⟨t, ht⟩ := Option.ne_none_iff_exists'.mp hne
  simp only [Erc1155Service.getTokenInfoBySymbol, ht]
  cases hcl : chainLookup t.chains wc.getChain.id with
  | none => simp [resolveToken, hcl]
  | some addr =>
    by_cases haddr : addr = "" <;> simp [resolveToken, hcl, haddr]

/-- Witness for the amended claim C2 at the GOLD registry and the
lowercase query. -/
theorem lookupBySymbol_exact_or_lowercase_found_witness :
    svcGold.getTokenInfoBySymbol wcChain1 { symbol := "gold" } ≠
      Except.error (.notFound "Token with symbol gold not found") :=
  lookupBySymbol_exact_or_lowercase_found svcGold wcChain1 goldToken "gold"
    (by simp [svcGold, Erc1155Service.create, goldToken]) (Or.inr rfl)
    "Token with symbol gold not found"

/-- Claim C4: a symbol matching no registered descriptor fails with the
not-found error regardless of the wallet's chain (the symbol check is
decided first); a symbol whose first matching descriptor has no (or an
empty) contract address for the wallet's current chain fails with the
unsupported-chain error; and the two failure outcomes are distinct. -/
theorem lookupBySymbol_error_taxonomy (svc : Erc1155Service) (s : String) :
    (∀ wc : EVMWalletClient, (∀ t ∈ svc.tokens, symbolMatches t s = false) →
      svc.getTokenInfoBySymbol wc { symbol := s } =
        Except.error (.notFound ("Token with symbol " ++ s ++ " not found"))) ∧
    (∀ (wc : EVMWalletClient) (t : Token),
      svc.tokens.find? (fun t => symbolMatches t s) = some t →
      (chainLookup t.chains wc.getChain.id = none ∨
        chainLookup t.chains wc.getChain.id = some "") →
      svc.getTokenInfoBySymbol wc { symbol := s } =
        Except.error (.unsupportedChain
          ("Token with symbol " ++ s ++ " not found on chain " ++
            toString wc.getChain.id))) ∧
    (∀ m m', ServiceErr.notFound m ≠ ServiceErr.unsupportedChain m') := by
  refine ⟨?_, ?_, fun m m' h => ServiceErr.noConfusion h⟩
  · intro wc h
    have hfind : svc.tokens.find? (fun t => symbolMatches t s) = none :=
      List.find?_eq_none.mpr (fun t ht => by simp [h t ht])
    simp [Erc1155Service.getTokenInfoBySymbol, hfind]
  · intro wc t ht hchain
    simp only [Erc1155Service.getTokenInfoBySymbol, ht]
    rcases hchain with hc | hc <;> simp [resolveToken, hc]

/-- Witness for claim C4: `SILVER` is unregistered in the GOLD registry and
fails not-found; `GOLD` is registered but has no address on chain 2 and
fails unsupported-chain. -/
theorem lookupBySymbol_error_taxonomy_witness :
    svcGold.getTokenInfoBySymbol wcChain1 { symbol := "SILVER" } =
      Except.error (.notFound "Token with symbol SILVER not found") ∧
    svcGold.getTokenInfoBySymbol wcChain2 { symbol := "GOLD" } =
      Except.error (.unsupportedChain "Token with symbol GOLD not found on chain 2") :=
  ⟨(lookupBySymbol_error_taxonomy svcGold "SILVER").1 wcChain1 (by decide),
   (lookupBySymbol_error_taxonomy svcGold "GOLD").2.1 wcChain2 goldToken rfl (Or.inl rfl)⟩

/-- Claim C5 (round-trip): a registry built from descriptor D, queried with
D's exact symbol while the wallet's current chain has a (nonempty) address
registered in D's chain map, returns exactly the record of D's public
fields with that address — and nothing else: the result type has no chain
map field. -/
theorem lookupBySymbol_roundtrip (D : Token) (wc : EVMWalletClient) (addr : String)
    (hchain : chainLookup D.chains wc.getChain.id = some addr) (hne : addr ≠ "") :
    (Erc1155Service.create (some [D])).getTokenInfoBySymbol wc { symbol := D.symbol } =
      Except.ok { symbol := D.symbol, contractAddress := addr, id := D.id,
                  decimals := D.decimals, name := D.name, uri := D.uri,
                  totalSupply := D.totalSupply } := by
  have hfind : [D].find? (fun t => symbolMatches t D.symbol) = some D :=
    List.find?_cons_of_pos _ (symbolMatches_self D)
  simp [Erc1155Service.getTokenInfoBySymbol, Erc1155Service.create, hfind,
    resolveToken, hchain, hne]

/-- Witness for claim C5: the spec's GOLD scenario at its exact symbol. -/
theorem lookupBySymbol_roundtrip_witness :
    (Erc1155Service.create (some [goldToken])).getTokenInfoBySymbol wcChain1
        { symbol := "GOLD" } =
      Except.ok { symbol := "GOLD", contractAddress := "0xAAA", id := 1, decimals := 0,
                  name := "Gold", uri := "uri:gold", totalSupply := 100 } :=
  lookupBySymbol_roundtrip goldToken wcChain1 "0xAAA" rfl (by decide)

/-- Claim C6 counterexample: in a registry holding the descriptor `gold`
before the descriptor `GOLD`, the exact-symbol query for the `GOLD`
descriptor returns that descriptor, but the query for its lowercase form
`gold` returns the other descriptor (the first match in list order), so
the two queries do not produce equal results. -/
theorem lookupBySymbol_case_collision :
    svcDup.getTokenInfoBySymbol wcChain1 { symbol := "GOLD" } =
      Except.ok { symbol := "GOLD", contractAddress := "0xAAA", id := 1, decimals := 0,
                  name := "Gold", uri := "uri:gold", totalSupply := 100 } ∧
    svcDup.getTokenInfoBySymbol wcChain1 { symbol := "gold" } =
      Except.ok { symbol := "gold", contractAddress := "0xBBB", id := 2, decimals := 0,
                  name := "Gold lower", uri := "uri:gold2", totalSupply := 50 } ∧
    svcDup.getTokenInfoBySymbol wcChain1 { symbol := "GOLD" } ≠
      svcDup.getTokenInfoBySymbol wcChain1 { symbol := "gold" } := by
  refine ⟨rfl, rfl, fun h => ?_⟩
  exact absurd (Except.ok.inj h) (by decide)

/-- Claim C6 (amended): for a descriptor D that is the registry's first
match both for its exact symbol and for its lowercase form, and whose chain
map holds a nonempty address for the wallet's current chain, the two
queries produce equal results, both resolving to D. -/
theorem lookupBySymbol_exact_lowercase_agree (svc : Erc1155Service)
    (wc : EVMWalletClient) (D : Token) (addr : String)
    (h1 : svc.tokens.find? (fun t => symbolMatches t D.symbol) = some D)
    (h2 : svc.tokens.find? (fun t => symbolMatches t (jsToLower D.symbol)) = some D)
    (hchain : chainLookup D.chains wc.getChain.id = some addr) (hne : addr ≠ "") :
    svc.getTokenInfoBySymbol wc { symbol := D.symbol } =
      Except.ok { symbol := D.symbol, contractAddress := addr, id := D.id,
                  decimals := D.decimals, name := D.name, uri := D.uri,
                  totalSupply := D.totalSupply } ∧
    svc.getTokenInfoBySymbol wc { symbol := jsToLower D.symbol } =
      svc.getTokenInfoBySymbol wc { symbol := D.symbol } := by
  constructor
  · simp [Erc1155Service.getTokenInfoBySymbol, h1, resolveToken, hchain, hne]
  · simp [Erc1155Service.getTokenInfoBySymbol, h1, h2, resolveToken, hchain, hne]

/-- Witness for the amended claim C6 at the collision-free GOLD registry. -/
theorem lookupBySymbol_exact_lowercase_agree_witness :
    svcGold.getTokenInfoBySymbol wcChain1 { symbol := "GOLD" } =
      Except.ok { symbol := "GOLD", contractAddress := "0xAAA", id := 1, decimals := 0,
                  name := "Gold", uri := "uri:gold", totalSupply := 100 } ∧
    svcGold.getTokenInfoBySymbol wcChain1 { symbol := jsToLower "GOLD" } =
      svcGold.getTokenInfoBySymbol wcChain1 { symbol := "GOLD" } :=
  lookupBySymbol_exact_lowercase_agree svcGold wcChain1 goldToken "0xAAA"
    rfl rfl rfl (by decide)

/-- Claim C3: when all owner resolutions succeed (order-preserving, as
`Promise.all` over `owners.map`) and the single batched read call returns a
list of raw values — one per requested (owner, id) pair, the ERC1155
guarantee for `balanceOfBatch` — the operation succeeds with the pointwise
`Number` conversion of that list: the output length equals the input
length and the i-th output is the converted balance of the i-th pair. -/
theorem balanceOfBatch_ordered (svc : Erc1155Service) (wc : EVMWalletClient)
    (p : BalanceOfBatchParameters) (ros : List String) (raws : List RawValue)
    (hres : p.owners.mapM wc.resolveAddress = Except.ok ros)
    (hread : wc.read (balanceOfBatchRead p.tokenAddress ros p.ids) =
      Except.ok { value := .list raws })
    (hlen : raws.length = p.owners.length) :
    ∃ out, svc.balanceOfBatch wc p = Except.ok out ∧
      out = raws.map jsNumber ∧
      out.length = p.owners.length ∧
      ∀ (i : Nat) (hi : i < out.length) (hi' : i < raws.length),
        out.get ⟨i, hi⟩ = jsNumber (raws.get ⟨i, hi'⟩) := by
  refine ⟨raws.map jsNumber, ?_, rfl, by simpa using hlen, ?_⟩
  · have htry : Erc1155Service.balanceOfBatchTry wc p = Except.ok (raws.map jsNumber) := by
      simp only [Erc1155Service.balanceOfBatchTry, hres, exceptBindOk, hread]
      rfl
    simp [Erc1155Service.balanceOfBatch, htry]
  · intro i hi hi'
    simp

/-- Witness for claim C3: two owners, balances 5 and 7 come back in order. -/
theorem balanceOfBatch_ordered_witness :
    svcGold.balanceOfBatch wcBatch
        { tokenAddress := "0xT", owners := ["a", "b"], ids := [3, 4] } =
      Except.ok [5, 7] := by
  obtain ⟨out, hok, hout, -, -⟩ := balanceOfBatch_ordered svcGold wcBatch
    { tokenAddress := "0xT", owners := ["a", "b"], ids := [3, 4] }
    ["a", "b"] [.num 5, .num 7] rfl rfl rfl
  rw [hok, hout]
  rfl

/-- Claim C7: the state-changing call specs built by `safeTransferFrom` and
`safeBatchTransferFrom` (the specs handed to `sendTransaction`) carry
`"0x"` as the final `data` argument when the optional parameter is
omitted, and carry the supplied byte string unchanged otherwise; and with
omitted data each operation behaves exactly as if `"0x"` had been
supplied, for every wallet client. -/
theorem transfer_data_default :
    (∀ (f t : String) (p : SafeTransferFromParameters), p.data = none →
      (safeTransferFromTx f t p).args =
        [.addr f, .addr t, .num p.id, .num p.value, .bytes "0x"]) ∧
    (∀ (f t : String) (p : SafeTransferFromParameters) (d : String), p.data = some d →
      (safeTransferFromTx f t p).args =
        [.addr f, .addr t, .num p.id, .num p.value, .bytes d]) ∧
    (∀ (f t : String) (p : SafeBatchTransferFromParameters), p.data = none →
      (safeBatchTransferFromTx f t p).args =
        [.addr f, .addr t, .numList p.ids, .numList p.values, .bytes "0x"]) ∧
    (∀ (f t : String) (p : SafeBatchTransferFromParameters) (d : String), p.data = some d →
      (safeBatchTransferFromTx f t p).args =
        [.addr f, .addr t, .numList p.ids, .numList p.values, .bytes d]) ∧
    (∀ (svc : Erc1155Service) (wc : EVMWalletClient) (p : SafeTransferFromParameters),
      p.data = none →
      svc.safeTransferFrom wc p = svc.safeTransferFrom wc { p with data := some "0x" }) ∧
    (∀ (svc : Erc1155Service) (wc : EVMWalletClient) (p : SafeBatchTransferFromParameters),
      p.data = none →
      svc.safeBatchTransferFrom wc p =
        svc.safeBatchTransferFrom wc { p with data := some "0x" }) := by
  refine ⟨?_, ?_, ?_, ?_, ?_, ?_⟩
  · intro f t p h; simp [safeTransferFromTx, h]
  · intro f t p d h; simp [safeTransferFromTx, h]
  · intro f t p h; simp [safeBatchTransferFromTx, h]
  · intro f t p d h; simp [safeBatchTransferFromTx, h]
  · intro svc wc p h
    simp [Erc1155Service.safeTransferFrom, Erc1155Service.safeTransferFromTry,
      safeTransferFromTx, h]
  · intro svc wc p h
    simp [Erc1155Service.safeBatchTransferFrom, Erc1155Service.safeBatchTransferFromTry,
      safeBatchTransferFromTx, h]

/-- Witness for claim C7: a transfer with omitted data sends `"0x"` and
equals the same transfer with `"0x"` supplied. -/
theorem transfer_data_default_witness :
    (safeTransferFromTx "alice" "bob"
        { tokenAddress := "0xT", «from» := "a.eth", «to» := "b.eth", id := 1,
          value := 2, data := none }).args =
      [.addr "alice", .addr "bob", .num 1, .num 2, .bytes "0x"] ∧
    svcGold.safeTransferFrom wcChain1
        { tokenAddress := "0xT", «from» := "a.eth", «to» := "b.eth", id := 1,
          value := 2, data := none } =
      svcGold.safeTransferFrom wcChain1
        { tokenAddress := "0xT", «from» := "a.eth", «to» := "b.eth", id := 1,
          value := 2, data := some "0x" } :=
  ⟨transfer_data_default.1 "alice" "bob" _ rfl,
   transfer_data_default.2.2.2.2.1 svcGold wcChain1 _ rfl⟩

/-- Claim C8: every operation with wallet-client calls wraps any failure of
those calls into its designated error kind with a message embedding the
original error (`QueryError` for the read path, `TransferError` for the
transfer path, `ApprovalError` for approval setting); no raw failure
escapes.  In particular, when `sendTransaction` rejects inside
`safeTransferFrom` with some message, the caller observes a
`TransferError` whose message extends that original message.
(`getTokenInfoBySymbol` performs no fallible wallet call: `getChain` is a
synchronous accessor.) -/
theorem wallet_failures_wrapped :
    (∀ (svc : Erc1155Service) (wc : EVMWalletClient) (p : BalanceOfParameters),
      (∃ v, svc.balanceOf wc p = Except.ok v) ∨
      ∃ m, svc.balanceOf wc p =
        Except.error (.query ("Failed to fetch balance: " ++ m))) ∧
    (∀ (svc : Erc1155Service) (wc : EVMWalletClient) (p : BalanceOfBatchParameters),
      (∃ v, svc.balanceOfBatch wc p = Except.ok v) ∨
      ∃ m, svc.balanceOfBatch wc p =
        Except.error (.query ("Failed to fetch batch balances: " ++ m))) ∧
    (∀ (svc : Erc1155Service) (wc : EVMWalletClient) (p : SafeTransferFromParameters),
      (∃ v, svc.safeTransferFrom wc p = Except.ok v) ∨
      ∃ m, svc.safeTransferFrom wc p =
        Except.error (.transfer ("Failed to transfer: " ++ m))) ∧
    (∀ (svc : Erc1155Service) (wc : EVMWalletClient) (p : SafeBatchTransferFromParameters),
      (∃ v, svc.safeBatchTransferFrom wc p = Except.ok v) ∨
      ∃ m, svc.safeBatchTransferFrom wc p =
        Except.error (.transfer ("Failed to batch transfer: " ++ m))) ∧
    (∀ (svc : Erc1155Service) (wc : EVMWalletClient) (p : SetApprovalForAllParameters),
      (∃ v, svc.setApprovalForAll wc p = Except.ok v) ∨
      ∃ m, svc.setApprovalForAll wc p =
        Except.error (.approval ("Failed to set approval: " ++ m))) ∧
    (∀ (svc : Erc1155Service) (wc : EVMWalletClient) (p : IsApprovedForAllParameters),
      (∃ v, svc.isApprovedForAll wc p = Except.ok v) ∨
      ∃ m, svc.isApprovedForAll wc p =
        Except.error (.query ("Failed to fetch balance: " ++ m))) ∧
    (∀ (svc : Erc1155Service) (wc : EVMWalletClient) (p : SafeTransferFromParameters)
        (f t m : String),
      wc.resolveAddress p.«from» = Except.ok f →
      wc.resolveAddress p.«to» = Except.ok t →
      wc.sendTransaction (safeTransferFromTx f t p) = Except.error m →
      svc.safeTransferFrom wc p =
        Except.error (.transfer ("Failed to transfer: " ++ m))) := by
  refine ⟨?_, ?_, ?_, ?_, ?_, ?_, ?_⟩
  · intro svc wc p
    cases h : Erc1155Service.balanceOfTry wc p with
    | ok v => exact .inl ⟨v, by simp [Erc1155Service.balanceOf, h]⟩
    | error e => exact .inr ⟨e, by simp [Erc1155Service.balanceOf, h]⟩
  · intro svc wc p
    cases h : Erc1155Service.balanceOfBatchTry wc p with
    | ok v => exact .inl ⟨v, by simp [Erc1155Service.balanceOfBatch, h]⟩
    | error e => exact .inr ⟨e, by simp [Erc1155Service.balanceOfBatch, h]⟩
  · intro svc wc p
    cases h : Erc1155Service.safeTransferFromTry wc p with
    | ok v => exact .inl ⟨v, by simp [Erc1155Service.safeTransferFrom, h]⟩
    | error e => exact .inr ⟨e, by simp [Erc1155Service.safeTransferFrom, h]⟩
  · intro svc wc p
    cases h : Erc1155Service.safeBatchTransferFromTry wc p with
    | ok v => exact .inl ⟨v, by simp [Erc1155Service.safeBatchTransferFrom, h]⟩
    | error e => exact .inr ⟨e, by simp [Erc1155Service.safeBatchTransferFrom, h]⟩
  · intro svc wc p
    cases h : Erc1155Service.setApprovalForAllTry wc p with
    | ok v => exact .inl ⟨v, by simp [Erc1155Service.setApprovalForAll, h]⟩
    | error e => exact .inr ⟨e, by simp [Erc1155Service.setApprovalForAll, h]⟩
  · intro svc wc p
    cases h : Erc1155Service.isApprovedForAllTry wc p with
    | ok v => exact .inl ⟨v, by simp [Erc1155Service.isApprovedForAll, h]⟩
    | error e => exact .inr ⟨e, by simp [Erc1155Service.isApprovedForAll, h]⟩
  · intro svc wc p f t m h1 h2 h3
    have htry : Erc1155Service.safeTransferFromTry wc p = Except.error m := by
      simp only [Erc1155Service.safeTransferFromTry, h1, exceptBindOk, h2, h3,
        exceptBindErr]
    simp [Erc1155Service.safeTransferFrom, htry]

/-- Witness for claim C8: a wallet whose `sendTransaction` rejects with
`boom` makes `safeTransferFrom` fail with a `TransferError` embedding that
message. -/
theorem wallet_failures_wrapped_witness :
    svcGold.safeTransferFrom wcBoom
        { tokenAddress := "0xT", «from» := "alice", «to» := "bob", id := 1,
          value := 2, data := none } =
      Except.error (.transfer "Failed to transfer: boom") :=
  wallet_failures_wrapped.2.2.2.2.2.2 svcGold wcBoom
    { tokenAddress := "0xT", «from» := "alice", «to» := "bob", id := 1,
      value := 2, data := none } "alice" "bob" "boom" rfl rfl rfl

/-- Claim C9: the token registry is fixed at construction — after any
sequence of operation invocations, in any order and whether each succeeds
or fails, the service's token list equals the one it started with (no
method body assigns to the private `tokens` field). -/
theorem tokens_immutable (svc : Erc1155Service) (wc : EVMWalletClient)
    (reqs : List Request) : (svc.run wc reqs).2.tokens = svc.tokens := by
  induction reqs generalizing svc with
  | nil => rfl
  | cons r rs ih =>
    have hstep : (svc.step wc r).2 = svc := by cases r <;> rfl
    simp [Erc1155Service.run, hstep, ih]

/-- Claim C10: when the descriptor at index i matches the query and no
earlier descriptor does, the `find`-based lookup selects exactly the
descriptor at index i — the first match in registry list order — and the
operation's result is determined by that descriptor alone. -/
theorem lookupBySymbol_first_match (svc : Erc1155Service) (wc : EVMWalletClient)
    (s : String) (i : Nat) (hi : i < svc.tokens.length)
    (hmatch : symbolMatches (svc.tokens.get ⟨i, hi⟩) s = true)
    (hbefore : ∀ (j : Nat) (hj : j < i),
      symbolMatches (svc.tokens.get ⟨j, Nat.lt_trans hj hi⟩) s = false) :
    svc.tokens.find? (fun t => symbolMatches t s) = some (svc.tokens.get ⟨i, hi⟩) ∧
    svc.getTokenInfoBySymbol wc { symbol := s } =
      resolveToken wc s (svc.tokens.get ⟨i, hi⟩) := by
  have hfind := find?_first_index (fun t => symbolMatches t s) svc.tokens i hi hmatch hbefore
  exact ⟨hfind, by simp [Erc1155Service.getTokenInfoBySymbol, hfind]⟩

/-- Witness for claim C10: in the registry `[gold, GOLD]` the query `GOLD`
skips the non-matching first descriptor and returns the second. -/
theorem lookupBySymbol_first_match_witness :
    svcDup.tokens.find? (fun t => symbolMatches t "GOLD") =
      some (svcDup.tokens.get ⟨1, by decide⟩) ∧
    svcDup.getTokenInfoBySymbol wcChain1 { symbol := "GOLD" } =
      resolveToken wcChain1 "GOLD" (svcDup.tokens.get ⟨1, by decide⟩) :=
  lookupBySymbol_first_match svcDup wcChain1 "GOLD" 1 (by decide) (by decide)
    (fun j hj => by
      have hj0 : j = 0 := Nat.lt_one_iff.mp hj
      subst hj0
      show symbolMatches (svcDup.tokens.get ⟨0, by decide⟩) "GOLD" = false
      decide)
